import Mathlib

/-!
# Shallow embedding of the Tello drone ATC server core

This development embeds the mission-controller core of the repository
(`app/core/drone.py`) and the landing-alignment evaluation
(`app/services/aruco.py`) as executable Lean definitions and proves the
specification's claims about them.

Modelling conventions:
* Pixel coordinates, distances and areas are rationals (`ℚ`).  The source
  compares the Euclidean norm `distance_from_center` against thresholds
  (`< 50`, `> 50`); since the norm is non-negative, we track its *square*
  and compare against `50 ^ 2`, which is equivalent and keeps everything
  rational and decidable.
* The two external collaborators (drone link and OpenCV vision calls) are
  modelled as oracles inside an `Env`: `get_battery` is a fixed integer,
  `get_frame` is a script indexed by the number of calls made so far, and
  `_send_command` acknowledgements are a script indexed by the number of
  commands sent so far.  `cv2.aruco.detectMarkers` /
  `estimatePoseSingleMarkers` results are carried on the frame itself as a
  list of detected-marker records (ids, corner pixels, pose vectors), since
  marker detection and pose estimation are external per the specification.
* Python exceptions are modelled with `Except String`, the `String` being
  the `DroneOperationError` message; state changes made before a raise are
  kept, as in Python.
-/

/-! ## Vision embedding (`app/services/aruco.py`) -/

/-- One marker as returned by the external vision calls: its id and corner
pixel coordinates (from `detectMarkers`) and its pose vectors (from
`estimatePoseSingleMarkers`, an external numeric routine modelled as data
attached to the detection). -/
structure DetectedMarker where
  id : ℤ
  corners : List (ℚ × ℚ)
  tvec : ℚ × ℚ × ℚ
  rvec : ℚ × ℚ × ℚ
deriving DecidableEq, Repr

/-- A video frame: its pixel dimensions (`frame.shape[1]` = width,
`frame.shape[0]` = height) together with the external detector's output on
it. -/
structure Frame where
  width : ℚ
  height : ℚ
  markers : List DetectedMarker
deriving DecidableEq, Repr

/-- Decidable equality for `Except`, used to evaluate concrete runs. -/
def exceptDecEq {ε α : Type} [DecidableEq ε] [DecidableEq α] :
    DecidableEq (Except ε α)
  | .ok a, .ok b =>
    if h : a = b then .isTrue (by rw [h])
    else .isFalse (by intro hh; cases hh; exact h rfl)
  | .ok _, .error _ => .isFalse nofun
  | .error _, .ok _ => .isFalse nofun
  | .error e, .error f =>
    if h : e = f then .isTrue (by rw [h])
    else .isFalse (by intro hh; cases hh; exact h rfl)

instance {ε α : Type} [DecidableEq ε] [DecidableEq α] :
    DecidableEq (Except ε α) := exceptDecEq

/-- Python `abs` on a rational, written so that it evaluates by cases
(equal to `|q|`, see `pyAbs_eq_abs`). -/
def pyAbs (q : ℚ) : ℚ := if q < 0 then -q else q

/-- `marker_corners[0].mean(axis=0)`: componentwise mean of the corner
points. -/
def centroid (ps : List (ℚ × ℚ)) : ℚ × ℚ :=
  ((ps.map Prod.fst).sum / ps.length, (ps.map Prod.snd).sum / ps.length)

/-- Squared Euclidean distance between two pixel points. -/
def distSq (p q : ℚ × ℚ) : ℚ :=
  (p.1 - q.1) ^ 2 + (p.2 - q.2) ^ 2

/-- `cv2.contourArea` on a polygon: half the absolute value of the shoelace
sum over cyclically consecutive corner pairs. -/
def contourArea (ps : List (ℚ × ℚ)) : ℚ :=
  pyAbs (((ps.zip (ps.rotate 1)).map (fun pq => pq.1.1 * pq.2.2 - pq.1.2 * pq.2.1)).sum) / 2

/-- `settings.HOME_MARKER_ID` (`app/config.py`). -/
def HOME_MARKER_ID : ℤ := 1

/-- `settings.TAKEOFF_HEIGHT` in meters (`app/config.py`). -/
def TAKEOFF_HEIGHT : ℚ := 1

/-- The `alignment_data` dict built by `get_landing_alignment`.
`distance_from_center_sq` is the square of the stored
`distance_from_center` (see the file header). -/
structure AlignmentData where
  distance_from_center_sq : ℚ
  marker_size : ℚ
  translation : ℚ × ℚ × ℚ
  rotation : ℚ × ℚ × ℚ
  is_aligned : Bool
deriving DecidableEq, Repr

/-- `frame_center = np.array([frame.shape[1]/2, frame.shape[0]/2])`. -/
def frameCenter (f : Frame) : ℚ × ℚ := (f.width / 2, f.height / 2)

/-- `ids.index(HOME_MARKER_ID)` after the membership test: the first
detected marker carrying the home id, if any. -/
def findHomeMarker (f : Frame) : Option DetectedMarker :=
  f.markers.find? (fun m => m.id == HOME_MARKER_ID)

/-- `ArucoDetector.get_landing_alignment` (`app/services/aruco.py`,
lines 41-83): returns `(False, None)` when the home marker id is not among
the detected ids, otherwise computes the centroid distance-from-center and
the contour area and declares alignment iff the distance is below 50 px and
the area exceeds 10% of the frame area. -/
def get_landing_alignment (frame : Frame) : Bool × Option AlignmentData :=
  match findHomeMarker frame with
  | none => (false, none)
  | some m =>
    let marker_center := centroid m.corners
    let dsq := distSq marker_center (frameCenter frame)
    let marker_size := contourArea m.corners
    let size_threshold := frame.height * frame.width * (1 / 10)
    let is_aligned : Bool := decide (dsq < 2500 ∧ marker_size > size_threshold)
    (is_aligned,
      some { distance_from_center_sq := dsq
             marker_size := marker_size
             translation := m.tvec
             rotation := m.rvec
             is_aligned := is_aligned })

/-! ## Data model of `app/core/drone.py` -/

/-- One entry of a location's `path` / `return_path`: a movement command
dict with `direction`, `distance` (meters) and optional `delay`
(default 2 s, only used for sleeping). -/
structure MovementCommand where
  direction : String
  distance : ℚ
  delay : ℚ := 2
deriving DecidableEq, Repr

/-- One capture-point dict: optional `position` reposition command and a
`frames` count (`point.get('frames', 1)`). -/
structure CapturePoint where
  position : Option MovementCommand := none
  frames : ℕ := 1
deriving DecidableEq, Repr

/-- One value of the `settings.locations` table. -/
structure LocationData where
  path : List MovementCommand
  capture_points : List CapturePoint
  return_path : List MovementCommand
deriving DecidableEq, Repr

/-- `dict.get` on the location table (a finite association list). -/
def lookupLocation (tbl : List (String × LocationData)) (k : String) :
    Option LocationData :=
  (tbl.find? (fun e => e.1 == k)).map Prod.snd

/-- The external world: battery telemetry, the frame script consumed by
successive `get_frame` calls, the acknowledgement script consumed by
successive `_send_command` calls, the location table, and the clock value
returned by `time.time()`. -/
structure Env where
  battery : ℤ
  frames : ℕ → Option Frame
  acks : ℕ → Bool
  locations : List (String × LocationData)
  now : ℚ

/-- Mutable per-mission device state: how many frames and commands have
been consumed from the scripts, the trace of command strings sent so far,
and `self.image_buffer`. -/
structure DState where
  frameIdx : ℕ
  sendIdx : ℕ
  trace : List String
  image_buffer : List Frame
deriving DecidableEq, Repr

/-- Python `int()` on a rational: truncation toward zero. -/
def pyInt (q : ℚ) : ℤ := if 0 ≤ q then q.floor else q.ceil

/-- The command string `f"{direction} {int(distance * 100)}"` built by
`_execute_path`. -/
def cmdString (c : MovementCommand) : String :=
  c.direction ++ " " ++ toString (pyInt (c.distance * 100))

/-- `self.drone._send_command(cmd)`: consumes one acknowledgement from the
script and records the command in the trace. -/
def send_command (env : Env) (s : DState) (cmd : String) : Bool × DState :=
  (env.acks s.sendIdx,
   { s with sendIdx := s.sendIdx + 1, trace := s.trace ++ [cmd] })

/-- `self.drone.get_frame()`: consumes one frame from the script. -/
def get_frame (env : Env) (s : DState) : Option Frame × DState :=
  (env.frames s.frameIdx, { s with frameIdx := s.frameIdx + 1 })

/-! ## Pipeline steps (`app/core/drone.py`) -/

/-- `DroneController._execute_path` (lines 89-95): send each command in
order, raising `Path command failed: ...` on the first unacknowledged
command (remaining commands are not issued). -/
def execute_path (env : Env) : List MovementCommand → DState →
    Except String Unit × DState
  | [], s => (.ok (), s)
  | c :: rest, s =>
    let command := cmdString c
    let (ack, s) := send_command env s command
    if ack then execute_path env rest s
    else (.error ("Path command failed: " ++ command), s)

/-- `DroneController._takeoff_sequence` (lines 65-87): battery floor check,
then a frame with a detectable home marker, then `takeoff` and the `up`
command to mission height (meters converted to centimeters). -/
def takeoff_sequence (env : Env) (s : DState) : Except String Unit × DState :=
  if env.battery < 20 then
    (.error ("Battery too low for mission: " ++ toString env.battery ++ "%"), s)
  else
    let (fo, s) := get_frame env s
    match fo with
    | none => (.error "No video frame available", s)
    | some frame =>
      match (get_landing_alignment frame).2 with
      | none => (.error "Cannot detect home marker before takeoff", s)
      | some _ =>
        let (ack, s) := send_command env s "takeoff"
        if ack then
          let (ack2, s) := send_command env s
            ("up " ++ toString (pyInt (TAKEOFF_HEIGHT * 100)))
          if ack2 then (.ok (), s)
          else (.error "Failed to reach takeoff height", s)
        else (.error "Takeoff command failed", s)

/-- Inner sampling loop of `_capture_location`: `frames_to_capture` ticks of
`get_frame`, appending each non-null frame to `self.image_buffer`. -/
def capture_frames_loop (env : Env) : ℕ → DState → DState
  | 0, s => s
  | n + 1, s =>
    let (fo, s) := get_frame env s
    let s := match fo with
      | some frame => { s with image_buffer := s.image_buffer ++ [frame] }
      | none => s
    capture_frames_loop env n s

/-- Per-point body of `_capture_location`: optional reposition via
`_execute_path([point['position']])` (whose failure propagates), then the
sampling ticks. -/
def capture_points_loop (env : Env) : List CapturePoint → DState →
    Except String Unit × DState
  | [], s => (.ok (), s)
  | p :: rest, s =>
    match p.position with
    | some mc =>
      match execute_path env [mc] s with
      | (.error e, s) => (.error e, s)
      | (.ok _, s) => capture_points_loop env rest (capture_frames_loop env p.frames s)
    | none => capture_points_loop env rest (capture_frames_loop env p.frames s)

/-- `DroneController._capture_location` (lines 97-112):
`self.image_buffer.clear()` then the per-point loop. -/
def capture_location (env : Env) (points : List CapturePoint) (s : DState) :
    Except String Unit × DState :=
  capture_points_loop env points { s with image_buffer := [] }

/-- The corrective sends of one `_return_home` round (lines 133-145): inside
`if alignment:` — when `distance_from_center > 50` (tracked as its square
against `50 ^ 2`) send a fixed 20 cm x-correction when `|dx| > 0.2` and a
fixed 20 cm y-correction when `|dy| > 0.2`, discarding both
acknowledgements. -/
def send_corrections (env : Env) (a : AlignmentData) (s : DState) : DState :=
  if a.distance_from_center_sq > 2500 then
    let dx := a.translation.1
    let dy := a.translation.2.1
    let s :=
      if pyAbs dx > 1 / 5 then
        (send_command env s (if dx > 0 then "right 20" else "left 20")).2
      else s
    if pyAbs dy > 1 / 5 then
      (send_command env s (if dy > 0 then "forward 20" else "back 20")).2
    else s
  else s

/-- The trace of command strings `send_corrections` emits (pure view of the
same nested conditionals). -/
def alignment_corrections (a : AlignmentData) : List String :=
  if a.distance_from_center_sq > 2500 then
    let dx := a.translation.1
    let dy := a.translation.2.1
    (if pyAbs dx > 1 / 5 then [if dx > 0 then "right 20" else "left 20"] else []) ++
    (if pyAbs dy > 1 / 5 then [if dy > 0 then "forward 20" else "back 20"] else [])
  else []

/-- The `while not aligned and attempts < 3` loop of `_return_home`
(lines 121-148), written as recursion on the remaining budget
`fuel = 3 - attempts` (entered with `fuel = 3`).  Returns `Except`'s error
for the mid-loop raise when no frame is available, otherwise the final
value of `aligned`. -/
def align_loop (env : Env) : ℕ → DState → Except String Bool × DState
  | 0, s => (.ok false, s)
  | fuel + 1, s =>
    let (fo, s) := get_frame env s
    match fo with
    | none => (.error "No video frame available for landing", s)
    | some frame =>
      match get_landing_alignment frame with
      | (true, _) => (.ok true, s)
      | (false, alignment) =>
        let s := match alignment with
          | some a => send_corrections env a s
          | none => s
        align_loop env fuel s

/-- `DroneController._return_home` (lines 114-155): the return path is read
from `settings.locations['home']` (a missing `'home'` entry is the
`KeyError('home')`, whose message is the quoted key), then the alignment
loop, the fail-closed check, and the `land` command. -/
def return_home (env : Env) (s : DState) : Except String Unit × DState :=
  match lookupLocation env.locations "home" with
  | none => (.error "'home'", s)
  | some home =>
    match execute_path env home.return_path s with
    | (.error e, s) => (.error e, s)
    | (.ok _, s) =>
      match align_loop env 3 s with
      | (.error e, s) => (.error e, s)
      | (.ok false, s) => (.error "Failed to align with landing marker", s)
      | (.ok true, s) =>
        let (ack, s) := send_command env s "land"
        if ack then (.ok (), s)
        else (.error "Landing command failed", s)

/-! ## Mission controller (`app/core/drone.py`, `execute_mission`) -/

/-- `self.current_mission`: the mission dict.  The code never writes any
completion-time key into it; the always-`none` `completion_time` field
models that absent key (cf. `MissionResponse.completion_time` defaulting to
`None` in `app/api/models.py`). -/
structure Mission where
  location_id : String
  start_time : ℚ
  status : String
  error : Option String := none
  completion_time : Option ℚ := none
deriving DecidableEq, Repr

/-- Controller-level state: the exclusivity flag, the current mission
record, and the device state. -/
structure CtrlState where
  mission_in_progress : Bool
  current_mission : Option Mission
  dstate : DState
deriving DecidableEq, Repr

/-- The `try` body of `execute_mission` (lines 42-53): takeoff →
outbound path → capture → return home, each failure aborting the rest. -/
def mission_pipeline (env : Env) (location_data : LocationData) (s : DState) :
    Except String Unit × DState :=
  match takeoff_sequence env s with
  | (.error e, s) => (.error e, s)
  | (.ok _, s) =>
    match execute_path env location_data.path s with
    | (.error e, s) => (.error e, s)
    | (.ok _, s) =>
      match capture_location env location_data.capture_points s with
      | (.error e, s) => (.error e, s)
      | (.ok _, s) => return_home env s

/-- `DroneController.execute_mission` (lines 26-63): conflict and
unknown-location rejections leave the state untouched; an accepted mission
sets the flag and the in-progress record, runs the pipeline, and on either
outcome clears the flag (`finally`), recording `completed` or
`failed`+error in the mission record; failures are re-raised wrapped as
`Mission failed: ...`. -/
def execute_mission (env : Env) (location_id : String) (c : CtrlState) :
    Except String Mission × CtrlState :=
  if c.mission_in_progress then
    (.error "Another mission is already in progress", c)
  else
    match lookupLocation env.locations location_id with
    | none => (.error ("Unknown location: " ++ location_id), c)
    | some location_data =>
      let mission : Mission :=
        { location_id := location_id, start_time := env.now
          status := "in_progress" }
      match mission_pipeline env location_data c.dstate with
      | (.ok _, s) =>
        let m := { mission with status := "completed" }
        (.ok m,
         { mission_in_progress := false, current_mission := some m, dstate := s })
      | (.error e, s) =>
        let m := { mission with status := "failed", error := some e }
        (.error ("Mission failed: " ++ e),
         { mission_in_progress := false, current_mission := some m, dstate := s })

/-! ## Specification-side view of the capture phase

These two definitions follow the specification's words (ordered
point-then-frame sampling with null frames skipped) and are compared with
the embedded `capture_location`. -/

/-- Per the spec: the non-null frames among `n` successive sampling ticks
starting at script position `i`, in tick order. -/
def spec_sampled_frames (env : Env) : ℕ → ℕ → List Frame
  | _, 0 => []
  | i, n + 1 => (env.frames i).toList ++ spec_sampled_frames env (i + 1) n

/-- Per the spec: the capture buffer is the concatenation, in point order,
of each point's sampled non-null frames. -/
def spec_captured_frames (env : Env) : List CapturePoint → ℕ → List Frame
  | [], _ => []
  | p :: rest, i =>
    spec_sampled_frames env i p.frames ++ spec_captured_frames env rest (i + p.frames)

/-- Total number of sampling ticks of a capture-point list. -/
def totalFrames (points : List CapturePoint) : ℕ :=
  (points.map CapturePoint.frames).sum

/-! ## Concrete instances used as test vectors -/

/-- An axis-aligned square/rectangular home marker given by two opposite
corners, with a chosen pose translation. -/
def rectMarker (x0 y0 x1 y1 : ℚ) (t : ℚ × ℚ × ℚ) : DetectedMarker :=
  { id := 1, corners := [(x0, y0), (x1, y0), (x1, y1), (x0, y1)]
    tvec := t, rvec := (0, 0, 0) }

/-- 960×720 frame whose marker centroid is (520, 360): 40 px from the frame
center (480, 360), with area 320·324 = 103680 = 15% of the frame. -/
def exFrameAligned : Frame :=
  { width := 960, height := 720, markers := [rectMarker 360 198 680 522 (0, 0, 0)] }

/-- 960×720 frame whose marker centroid is (540, 360): 60 px from center,
area 384·360 = 138240 = 20% of the frame, pose translation (0.3, 0, 0). -/
def exFrameFar : Frame :=
  { width := 960, height := 720, markers := [rectMarker 348 180 732 540 (3/10, 0, 0)] }

/-- 960×720 frame whose marker centroid is (520, 360): 40 px from center
but with area 200·300 = 60000 ≤ 10% of the frame (so not aligned), pose
translation (0.3, 0, 0). -/
def exFrameNear : Frame :=
  { width := 960, height := 720, markers := [rectMarker 420 210 620 510 (3/10, 0, 0)] }

/-- A frame with no detected markers at all. -/
def exFrameNoMarker : Frame := { width := 960, height := 720, markers := [] }

/-- Fresh device state. -/
def s0 : DState := { frameIdx := 0, sendIdx := 0, trace := [], image_buffer := [] }

/-- Idle controller state. -/
def c0 : CtrlState := { mission_in_progress := false, current_mission := none, dstate := s0 }

/-- Controller state with a mission already in progress. -/
def cBusy : CtrlState := { mission_in_progress := true, current_mission := none, dstate := s0 }

/-- A `home` location-table entry with empty paths. -/
def homeEntry : LocationData := { path := [], capture_points := [], return_path := [] }

/-- Environment whose every frame shows the far, unaligned marker
(translation (0.3, 0, 0), distance 60 px). -/
def envFar : Env where
  battery := 100
  frames := fun _ => some exFrameFar
  acks := fun _ => true
  locations := [("home", homeEntry)]
  now := 0

/-- Environment whose every frame shows the near-but-small, unaligned
marker (translation (0.3, 0, 0), distance 40 px). -/
def envNear : Env := { envFar with frames := fun _ => some exFrameNear }

/-- Environment whose every frame shows the aligned marker. -/
def envOK : Env := { envFar with frames := fun _ => some exFrameAligned }

/-- `envOK` with battery at 15%. -/
def envLowBat : Env := { envOK with battery := 15 }

/-- `envOK` with every command acknowledgement refused. -/
def envReject : Env := { envOK with acks := fun _ => false }

/-- A location whose outbound path is one `forward 1 m` command and whose
own return path is one `back 1 m` command. -/
def siteA : LocationData :=
  { path := [{ direction := "forward", distance := 1 }]
    capture_points := []
    return_path := [{ direction := "back", distance := 1 }] }

/-- A `home` entry whose return path is one `left 1 m` command, distinct
from `siteA`'s return path. -/
def homeB : LocationData :=
  { path := [], capture_points := []
    return_path := [{ direction := "left", distance := 1 }] }

/-- `envOK` with the two-entry location table `siteA` / `home`. -/
def envC4 : Env := { envOK with locations := [("siteA", siteA), ("home", homeB)] }

/-- The mission record returned by the successful `envC4` run. -/
def mC4 : Mission := { location_id := "siteA", start_time := 0, status := "completed" }

/-- The mission record returned by the successful `envOK` run. -/
def mC6 : Mission := { location_id := "home", start_time := 0, status := "completed" }

/-- Pairwise-distinct frames for the capture test vector. -/
def fcap (i : ℕ) : Frame := { width := i, height := 0, markers := [] }

/-- Environment whose frame script yields `fcap 0`, `fcap 1`, `fcap 2`,
then nothing. -/
def envCap : Env := { envOK with frames := fun i => if i < 3 then some (fcap i) else none }

/-- Two capture points with frame counts [2, 1] and no repositioning. -/
def capPoints21 : List CapturePoint := [{ frames := 2 }, { frames := 1 }]

/-- `envOK` with every frame showing no marker at all. -/
def envNoMarker : Env := { envOK with frames := fun _ => some exFrameNoMarker }

/-- The alignment sample computed on `exFrameFar`: 60 px off center
(squared: 3600), area 20% of the frame, translation (0.3, 0, 0), not
aligned. -/
def aFar : AlignmentData :=
  { distance_from_center_sq := 3600, marker_size := 138240
    translation := (3/10, 0, 0), rotation := (0, 0, 0), is_aligned := false }

/-- The alignment sample computed on `exFrameAligned`: 40 px off center
(squared: 1600), area 15% of the frame, aligned. -/
def aAligned : AlignmentData :=
  { distance_from_center_sq := 1600, marker_size := 103680
    translation := (0, 0, 0), rotation := (0, 0, 0), is_aligned := true }

/-- A one-meter forward movement command. -/
def cmdFwd : MovementCommand := { direction := "forward", distance := 1 }

/-! ## Theorems -/

/-- Claim C3: the alignment evaluation returns `(false, none)` when the
home-marker id is not among the detections, and otherwise declares aligned
iff the centroid's pixel distance from the frame center is strictly below
50 px and the marker's projected area strictly exceeds 10% of the frame
area; the 40 px / 15% sample is aligned, the 60 px / 20% sample is not. -/
theorem c3_alignment_criteria :
    (∀ f : Frame, findHomeMarker f = none → get_landing_alignment f = (false, none)) ∧
    (∀ (f : Frame) (m : DetectedMarker), findHomeMarker f = some m →
      ((get_landing_alignment f).1 = true ↔
        distSq (centroid m.corners) (frameCenter f) < 2500 ∧
        contourArea m.corners > f.height * f.width * (1 / 10))) ∧
    (get_landing_alignment exFrameAligned).1 = true ∧
    (get_landing_alignment exFrameFar).1 = false := by
  refine ⟨?_, ?_, by with_unfolding_all rfl, by with_unfolding_all rfl⟩
  · intro f h
    simp [get_landing_alignment, h]
  · intro f m h
    simp [get_landing_alignment, h]

/-- Witness for C3 at a markerless frame. -/
theorem c3_witness :
    get_landing_alignment exFrameNoMarker = (false, none) :=
  c3_alignment_criteria.1 exFrameNoMarker rfl

/-- Claim C8: a conflicting start and an unknown location id are rejected
with the corresponding errors and the controller state is returned exactly
as it was (so `mission_in_progress` stays `false` in the NotFound case). -/
theorem c8_rejections_leave_state_unchanged :
    (∀ (env : Env) (lid : String) (c : CtrlState), c.mission_in_progress = true →
       execute_mission env lid c = (.error "Another mission is already in progress", c)) ∧
    (∀ (env : Env) (lid : String) (c : CtrlState), c.mission_in_progress = false →
       lookupLocation env.locations lid = none →
       execute_mission env lid c = (.error ("Unknown location: " ++ lid), c)) := by
  constructor
  · intro env lid c h
    simp [execute_mission, h]
  · intro env lid c h hl
    simp [execute_mission, h, hl]

/-- Witness for C8: concrete conflict and unknown-location rejections. -/
theorem c8_witness :
    execute_mission envOK "home" cBusy =
      (.error "Another mission is already in progress", cBusy) ∧
    execute_mission envOK "nowhere" c0 =
      (.error ("Unknown location: " ++ "nowhere"), c0) :=
  ⟨c8_rejections_leave_state_unchanged.1 envOK "home" cBusy rfl,
   c8_rejections_leave_state_unchanged.2 envOK "nowhere" c0 rfl rfl⟩

/-- Claim C5: for an accepted mission, the in-progress flag is cleared on
every exit path, and every pipeline failure yields a mission record with
status `failed` and the original message in its error field, the caller
receiving the single wrapped `Mission failed: ...` error. -/
theorem c5_failure_handling (env : Env) (lid : String) (c : CtrlState)
    (loc : LocationData)
    (h : c.mission_in_progress = false)
    (hl : lookupLocation env.locations lid = some loc) :
    (execute_mission env lid c).2.mission_in_progress = false ∧
    ∀ msg, (execute_mission env lid c).1 = .error msg →
      ∃ e, msg = "Mission failed: " ++ e ∧
        (execute_mission env lid c).2.current_mission =
          some { location_id := lid, start_time := env.now, status := "failed"
                 error := some e } := by
  rcases hp : mission_pipeline env loc c.dstate with ⟨r, s⟩
  cases r with
  | ok u =>
    simp [execute_mission, h, hl, hp]
  | error e =>
    refine ⟨by simp [execute_mission, h, hl, hp], ?_⟩
    intro msg hmsg
    simp only [execute_mission, h, hl, hp] at hmsg
    refine ⟨e, ?_, by simp [execute_mission, h, hl, hp]⟩
    simp at hmsg
    exact hmsg.symm

/-- Witness for C5 at the low-battery environment. -/
theorem c5_witness :
    (execute_mission envLowBat "home" c0).2.mission_in_progress = false ∧
    ∀ msg, (execute_mission envLowBat "home" c0).1 = .error msg →
      ∃ e, msg = "Mission failed: " ++ e ∧
        (execute_mission envLowBat "home" c0).2.current_mission =
          some { location_id := "home", start_time := envLowBat.now, status := "failed"
                 error := some e } :=
  c5_failure_handling envLowBat "home" c0 homeEntry rfl rfl

/-- Claim C6 (amended): on full pipeline success the returned mission
snapshot has status `completed`, the flag is cleared and the snapshot is
stored as the current mission — but no completion time is recorded. -/
theorem c6_success_updates (env : Env) (lid : String) (c : CtrlState)
    (loc : LocationData)
    (h : c.mission_in_progress = false)
    (hl : lookupLocation env.locations lid = some loc) :
    ∀ m, (execute_mission env lid c).1 = .ok m →
      m = { location_id := lid, start_time := env.now, status := "completed" } ∧
      m.completion_time = none ∧
      (execute_mission env lid c).2.mission_in_progress = false ∧
      (execute_mission env lid c).2.current_mission = some m := by
  intro m hm
  rcases hp : mission_pipeline env loc c.dstate with ⟨r, s⟩
  cases r with
  | ok u =>
    have hm' := hm
    simp only [execute_mission, h, hl, hp] at hm'
    simp at hm'
    subst hm'
    refine ⟨rfl, rfl, by simp [execute_mission, h, hl, hp], by simp [execute_mission, h, hl, hp]⟩
  | error e =>
    simp [execute_mission, h, hl, hp] at hm

/-- Counterexample to C6 as stated: a fully successful concrete mission
whose returned record carries no completion time. -/
theorem c6_counterexample :
    (execute_mission envOK "home" c0).1 = .ok mC6 ∧
    mC6.status = "completed" ∧ mC6.completion_time = none :=
  ⟨by with_unfolding_all rfl, rfl, rfl⟩

/-- Witness for C6's amended theorem at the successful concrete run. -/
theorem c6_witness :
    mC6 = { location_id := "home", start_time := envOK.now, status := "completed" } ∧
    mC6.completion_time = none ∧
    (execute_mission envOK "home" c0).2.mission_in_progress = false ∧
    (execute_mission envOK "home" c0).2.current_mission = some mC6 :=
  c6_success_updates envOK "home" c0 homeEntry rfl rfl mC6 (by with_unfolding_all rfl)

/-- Claim C7: preflight reads the battery first and a level below 20%
fails the mission before any motion command (the device state is returned
untouched, so the command trace is unchanged); with sufficient battery, a
frame without a detectable home marker fails preflight before the takeoff
command is sent. -/
theorem c7_preflight_gates :
    (∀ (env : Env) (lid : String) (c : CtrlState) (loc : LocationData),
       c.mission_in_progress = false →
       lookupLocation env.locations lid = some loc →
       env.battery < 20 →
       execute_mission env lid c =
         (.error ("Mission failed: " ++
            ("Battery too low for mission: " ++ toString env.battery ++ "%")),
          { mission_in_progress := false
            current_mission := some
              { location_id := lid, start_time := env.now, status := "failed"
                error := some ("Battery too low for mission: " ++ toString env.battery ++ "%") }
            dstate := c.dstate })) ∧
    (∀ (env : Env) (s : DState) (f : Frame),
       ¬ env.battery < 20 →
       env.frames s.frameIdx = some f →
       (get_landing_alignment f).2 = none →
       takeoff_sequence env s =
         (.error "Cannot detect home marker before takeoff",
          { s with frameIdx := s.frameIdx + 1 })) := by
  constructor
  · intro env lid c loc h hl hb
    simp [execute_mission, h, hl, mission_pipeline, takeoff_sequence, hb]
  · intro env s f hb hf ha
    simp [takeoff_sequence, get_frame, hb, hf, ha]

/-- Witness for C7: battery 15% fails with zero motion commands sent, and a
markerless frame fails preflight vision. -/
theorem c7_witness :
    execute_mission envLowBat "home" c0 =
      (.error ("Mission failed: " ++
         ("Battery too low for mission: " ++ toString envLowBat.battery ++ "%")),
       { mission_in_progress := false
         current_mission := some
           { location_id := "home", start_time := envLowBat.now, status := "failed"
             error := some ("Battery too low for mission: " ++ toString envLowBat.battery ++ "%") }
         dstate := c0.dstate }) ∧
    takeoff_sequence envNoMarker s0 =
      (.error "Cannot detect home marker before takeoff",
       { s0 with frameIdx := s0.frameIdx + 1 }) :=
  ⟨c7_preflight_gates.1 envLowBat "home" c0 homeEntry rfl rfl (by decide),
   c7_preflight_gates.2 envNoMarker s0 exFrameNoMarker (by decide) rfl rfl⟩

/-! ## Helper lemmas about the embedded operations -/

theorem pyAbs_eq_abs (q : ℚ) : pyAbs q = |q| := by
  unfold pyAbs
  split_ifs with h
  · exact (abs_of_neg h).symm
  · exact (abs_of_nonneg (le_of_not_lt h)).symm

theorem send_corrections_eq (env : Env) (a : AlignmentData) (s : DState) :
    send_corrections env a s =
      { s with sendIdx := s.sendIdx + (alignment_corrections a).length
               trace := s.trace ++ alignment_corrections a } := by
  unfold send_corrections alignment_corrections send_command
  by_cases h1 : a.distance_from_center_sq > 2500 <;>
    by_cases h2 : (5 : ℚ)⁻¹ < pyAbs a.translation.1 <;>
      by_cases h3 : (5 : ℚ)⁻¹ < pyAbs a.translation.2.1 <;>
        simp [h1, h2, h3, List.append_assoc, Nat.add_assoc]

theorem execute_path_ok (env : Env) (cmds : List MovementCommand) :
    ∀ s s', execute_path env cmds s = (.ok (), s') →
      s' = { s with sendIdx := s.sendIdx + cmds.length
                    trace := s.trace ++ cmds.map cmdString } := by
  induction cmds with
  | nil =>
    intro s s' h
    simp [execute_path] at h
    simp [h.symm]
  | cons c rest ih =>
    intro s s' h
    unfold execute_path send_command at h
    dsimp only at h
    split at h
    · have := ih _ _ h
      rw [this]
      simp [List.append_assoc, Nat.add_assoc, Nat.add_comm 1 rest.length]
    · simp at h

theorem align_loop_state_components (env : Env) (fuel : ℕ) :
    ∀ s : DState,
      (align_loop env fuel s).2.frameIdx ≤ s.frameIdx + fuel ∧
      (align_loop env fuel s).2.image_buffer = s.image_buffer ∧
      ∃ t, (align_loop env fuel s).2.trace = s.trace ++ t := by
  induction fuel with
  | zero => intro s; simp [align_loop]
  | succ n ih =>
    intro s
    unfold align_loop get_frame
    cases hf : env.frames s.frameIdx with
    | none => simp
    | some f =>
      rcases hga : get_landing_alignment f with ⟨b, al⟩
      cases b with
      | true => simp [hga]
      | false =>
        cases al with
        | none =>
          simp only [hga]
          obtain ⟨h1, h2, t, h3⟩ := ih ⟨s.frameIdx + 1, s.sendIdx, s.trace, s.image_buffer⟩
          exact ⟨by simp only at h1 ⊢; omega, by simpa using h2, ⟨t, by simpa using h3⟩⟩
        | some a =>
          simp only [hga, send_corrections_eq]
          obtain ⟨h1, h2, t, h3⟩ :=
            ih ⟨s.frameIdx + 1, s.sendIdx + (alignment_corrections a).length,
                s.trace ++ alignment_corrections a, s.image_buffer⟩
          refine ⟨by simp only at h1 ⊢; omega, by simpa using h2,
            ⟨alignment_corrections a ++ t, ?_⟩⟩
          simp only at h3 ⊢
          rw [h3, List.append_assoc]

theorem align_loop_all_unaligned (env : Env) (fuel : ℕ) :
    ∀ s : DState,
      (∀ i < fuel, ∃ f, env.frames (s.frameIdx + i) = some f ∧
        (get_landing_alignment f).1 = false) →
      (align_loop env fuel s).1 = .ok false := by
  induction fuel with
  | zero => intro s _; simp [align_loop]
  | succ n ih =>
    intro s h
    obtain ⟨f, hf, hfa⟩ := h 0 (Nat.succ_pos n)
    rw [Nat.add_zero] at hf
    unfold align_loop get_frame
    rw [hf]
    rcases hga : get_landing_alignment f with ⟨b, al⟩
    have hb : b = false := by rw [hga] at hfa; exact hfa
    subst hb
    cases al with
    | none =>
      simp only [hga]
      apply ih
      intro i hi
      obtain ⟨f', hf', ha'⟩ := h (i + 1) (by omega)
      exact ⟨f', by simpa [Nat.add_assoc, Nat.add_comm 1 i] using hf', ha'⟩
    | some a =>
      simp only [hga, send_corrections_eq]
      apply ih
      intro i hi
      obtain ⟨f', hf', ha'⟩ := h (i + 1) (by omega)
      exact ⟨f', by simpa [Nat.add_assoc, Nat.add_comm 1 i] using hf', ha'⟩

theorem align_loop_ok_true (env : Env) (fuel : ℕ) :
    ∀ s : DState, (align_loop env fuel s).1 = .ok true →
      ∃ i < fuel, ∃ f, env.frames (s.frameIdx + i) = some f ∧
        (get_landing_alignment f).1 = true := by
  induction fuel with
  | zero => intro s h; simp [align_loop] at h
  | succ n ih =>
    intro s h
    unfold align_loop get_frame at h
    cases hf : env.frames s.frameIdx with
    | none => rw [hf] at h; simp at h
    | some f =>
      rw [hf] at h
      dsimp only at h
      rcases hga : get_landing_alignment f with ⟨b, al⟩
      rw [hga] at h
      cases b with
      | true => exact ⟨0, Nat.succ_pos n, f, by rwa [Nat.add_zero], by rw [hga]⟩
      | false =>
        cases al with
        | none =>
          dsimp only at h
          obtain ⟨i, hi, f', hf', ha'⟩ := ih _ h
          exact ⟨i + 1, by omega, f',
            by simpa [Nat.add_assoc, Nat.add_comm 1 i] using hf', ha'⟩
        | some a =>
          dsimp only at h
          rw [send_corrections_eq] at h
          obtain ⟨i, hi, f', hf', ha'⟩ := ih _ h
          exact ⟨i + 1, by omega, f',
            by simpa [Nat.add_assoc, Nat.add_comm 1 i] using hf', ha'⟩

theorem align_loop_acks_irrelevant (env : Env) (a2 : ℕ → Bool) (fuel : ℕ) :
    ∀ s : DState, align_loop { env with acks := a2 } fuel s = align_loop env fuel s := by
  induction fuel with
  | zero => intro s; rfl
  | succ n ih =>
    intro s
    unfold align_loop get_frame
    dsimp only
    cases hf : env.frames s.frameIdx with
    | none => rfl
    | some f =>
      dsimp only
      rcases hga : get_landing_alignment f with ⟨b, al⟩
      cases b with
      | true => rfl
      | false =>
        cases al with
        | none =>
          dsimp only
          exact ih _
        | some a =>
          dsimp only
          rw [send_corrections_eq, send_corrections_eq]
          exact ih _

theorem takeoff_sequence_ok (env : Env) (s s' : DState)
    (h : takeoff_sequence env s = (.ok (), s')) :
    s' = { s with frameIdx := s.frameIdx + 1, sendIdx := s.sendIdx + 2
                  trace := s.trace ++
                    ["takeoff", "up " ++ toString (pyInt (TAKEOFF_HEIGHT * 100))] } := by
  unfold takeoff_sequence get_frame send_command at h
  split at h
  · simp at h
  · dsimp only at h
    cases hf : env.frames s.frameIdx with
    | none => rw [hf] at h; simp at h
    | some f =>
      rw [hf] at h
      dsimp only at h
      cases hal : (get_landing_alignment f).2 with
      | none => rw [hal] at h; simp at h
      | some a =>
        rw [hal] at h
        dsimp only at h
        split at h
        · split at h
          · rw [Prod.mk.injEq] at h
            rw [← h.2]
            simp [List.append_assoc]
          · simp at h
        · simp at h

theorem capture_frames_loop_eq (env : Env) (n : ℕ) :
    ∀ s : DState, capture_frames_loop env n s =
      { s with frameIdx := s.frameIdx + n
               image_buffer := s.image_buffer ++ spec_sampled_frames env s.frameIdx n } := by
  induction n with
  | zero => intro s; simp [capture_frames_loop, spec_sampled_frames]
  | succ m ih =>
    intro s
    unfold capture_frames_loop get_frame
    dsimp only
    cases hf : env.frames s.frameIdx with
    | none =>
      rw [ih]
      simp [spec_sampled_frames, hf, Nat.add_assoc, Nat.add_comm 1 m]
    | some f =>
      rw [ih]
      simp [spec_sampled_frames, hf, Nat.add_assoc, Nat.add_comm 1 m, List.append_assoc]

theorem capture_points_loop_no_position (env : Env) (points : List CapturePoint) :
    ∀ s : DState, (∀ p ∈ points, p.position = none) →
      capture_points_loop env points s =
        (.ok (), { s with frameIdx := s.frameIdx + totalFrames points
                          image_buffer := s.image_buffer ++
                            spec_captured_frames env points s.frameIdx }) := by
  induction points with
  | nil => intro s _; simp [capture_points_loop, totalFrames, spec_captured_frames]
  | cons p rest ih =>
    intro s h
    have hp : p.position = none := h p (by simp)
    unfold capture_points_loop
    rw [hp]
    dsimp only
    rw [capture_frames_loop_eq, ih _ (fun q hq => h q (List.mem_cons_of_mem p hq))]
    simp [totalFrames, spec_captured_frames, List.append_assoc, Nat.add_assoc]

theorem capture_points_loop_ok_trace (env : Env) (points : List CapturePoint) :
    ∀ s s' : DState, capture_points_loop env points s = (.ok (), s') →
      ∃ t, s'.trace = s.trace ++ t := by
  induction points with
  | nil =>
    intro s s' h
    simp [capture_points_loop] at h
    exact ⟨[], by simp [h.symm]⟩
  | cons p rest ih =>
    intro s s' h
    unfold capture_points_loop at h
    cases hp : p.position with
    | none =>
      rw [hp] at h
      dsimp only at h
      obtain ⟨t, ht⟩ := ih _ _ h
      rw [capture_frames_loop_eq] at ht
      exact ⟨t, by simpa using ht⟩
    | some mc =>
      rw [hp] at h
      dsimp only at h
      rcases hep : execute_path env [mc] s with ⟨r, s1⟩
      rw [hep] at h
      cases r with
      | error e => simp at h
      | ok u =>
        cases u
        dsimp only at h
        obtain ⟨t, ht⟩ := ih _ _ h
        rw [capture_frames_loop_eq] at ht
        have h1 := execute_path_ok env [mc] s s1 hep
        rw [h1] at ht
        exact ⟨[cmdString mc] ++ t, by simpa [List.append_assoc] using ht⟩

theorem return_home_ok (env : Env) (s s' : DState)
    (h : return_home env s = (.ok (), s')) :
    ∃ home s1 s2, lookupLocation env.locations "home" = some home ∧
      execute_path env home.return_path s = (.ok (), s1) ∧
      align_loop env 3 s1 = (.ok true, s2) ∧
      s' = { s2 with sendIdx := s2.sendIdx + 1, trace := s2.trace ++ ["land"] } := by
  unfold return_home send_command at h
  cases hl : lookupLocation env.locations "home" with
  | none => rw [hl] at h; simp at h
  | some home =>
    rw [hl] at h
    dsimp only at h
    rcases hep : execute_path env home.return_path s with ⟨r, s1⟩
    rw [hep] at h
    cases r with
    | error e => simp at h
    | ok u =>
      cases u
      dsimp only at h
      rcases hal : align_loop env 3 s1 with ⟨r2, s2⟩
      rw [hal] at h
      cases r2 with
      | error e => simp at h
      | ok b =>
        cases b with
        | false => simp at h
        | true =>
          dsimp only at h
          split at h
          · rw [Prod.mk.injEq] at h
            exact ⟨home, s1, s2, rfl, hep, hal, h.2.symm⟩
          · simp at h

theorem mission_pipeline_ok (env : Env) (loc : LocationData) (s s' : DState)
    (h : mission_pipeline env loc s = (.ok (), s')) :
    ∃ s1 s2 s3, takeoff_sequence env s = (.ok (), s1) ∧
      execute_path env loc.path s1 = (.ok (), s2) ∧
      capture_location env loc.capture_points s2 = (.ok (), s3) ∧
      return_home env s3 = (.ok (), s') := by
  unfold mission_pipeline at h
  rcases h1 : takeoff_sequence env s with ⟨r1, s1⟩
  rw [h1] at h
  cases r1 with
  | error e => simp at h
  | ok u =>
    cases u
    dsimp only at h
    rcases h2 : execute_path env loc.path s1 with ⟨r2, s2⟩
    rw [h2] at h
    cases r2 with
    | error e => simp at h
    | ok u =>
      cases u
      dsimp only at h
      rcases h3 : capture_location env loc.capture_points s2 with ⟨r3, s3⟩
      rw [h3] at h
      cases r3 with
      | error e => simp at h
      | ok u =>
        cases u
        dsimp only at h
        refine ⟨s1, s2, s3, ?_, ?_, ?_, ?_⟩
        · exact h1 ▸ rfl
        · exact h2 ▸ rfl
        · exact h3 ▸ rfl
        · exact h

theorem execute_mission_ok_pipeline (env : Env) (lid : String) (c : CtrlState)
    (loc : LocationData) (h : c.mission_in_progress = false)
    (hl : lookupLocation env.locations lid = some loc) :
    ∀ m, (execute_mission env lid c).1 = .ok m →
      mission_pipeline env loc c.dstate =
        (.ok (), (execute_mission env lid c).2.dstate) := by
  intro m hm
  rcases hp : mission_pipeline env loc c.dstate with ⟨r, s⟩
  cases r with
  | ok u =>
    cases u
    simp [execute_mission, h, hl, hp]
  | error e => simp [execute_mission, h, hl, hp] at hm

/-- Claim C2: the landing-alignment loop performs at most 3 rounds (at
most 3 frames are consumed); when every round's evaluation yields an
unaligned result, `_return_home` fails with the AlignmentTimeout error
"Failed to align with landing marker"; and the `land` command is appended
to the trace only when the loop exits aligned, in which case some round's
evaluation returned aligned = true — landing never happens without a
confirmed aligned frame (fail-closed). -/
theorem c2_bounded_loop_fail_closed :
    (∀ (env : Env) (s : DState), (align_loop env 3 s).2.frameIdx ≤ s.frameIdx + 3) ∧
    (∀ (env : Env) (s s1 : DState) (home : LocationData),
       lookupLocation env.locations "home" = some home →
       execute_path env home.return_path s = (.ok (), s1) →
       (∀ i < 3, ∃ f, env.frames (s1.frameIdx + i) = some f ∧
         (get_landing_alignment f).1 = false) →
       (return_home env s).1 = .error "Failed to align with landing marker") ∧
    (∀ (env : Env) (s s' : DState), return_home env s = (.ok (), s') →
       ∃ home s1 s2, lookupLocation env.locations "home" = some home ∧
         execute_path env home.return_path s = (.ok (), s1) ∧
         align_loop env 3 s1 = (.ok true, s2) ∧
         s'.trace = s2.trace ++ ["land"] ∧
         ∃ i < 3, ∃ f, env.frames (s1.frameIdx + i) = some f ∧
           (get_landing_alignment f).1 = true) ∧
    (∀ (env : Env) (s s1 s2 : DState) (home : LocationData) (r : Except String Bool),
       lookupLocation env.locations "home" = some home →
       execute_path env home.return_path s = (.ok (), s1) →
       align_loop env 3 s1 = (r, s2) → r ≠ .ok true →
       (return_home env s).2 = s2) := by
  refine ⟨?_, ?_, ?_, ?_⟩
  · intro env s
    exact (align_loop_state_components env 3 s).1
  · intro env s s1 home hl hep hrounds
    have hok : (align_loop env 3 s1).1 = .ok false :=
      align_loop_all_unaligned env 3 s1 hrounds
    rcases hal : align_loop env 3 s1 with ⟨r, s2⟩
    rw [hal] at hok
    simp at hok
    subst hok
    unfold return_home
    rw [hl]
    dsimp only
    rw [hep]
    dsimp only
    rw [hal]
  · intro env s s' h
    obtain ⟨home, s1, s2, hl, hep, hal, hs'⟩ := return_home_ok env s s' h
    obtain ⟨i, hi, f, hf, hfa⟩ :=
      align_loop_ok_true env 3 s1 (by rw [hal])
    exact ⟨home, s1, s2, hl, hep, hal, by rw [hs'], i, hi, f, hf, hfa⟩
  · intro env s s1 s2 home r hl hep hal hr
    unfold return_home
    rw [hl]
    dsimp only
    rw [hep]
    dsimp only
    rw [hal]
    cases r with
    | error e => rfl
    | ok b =>
      cases b with
      | false => rfl
      | true => exact absurd rfl hr

/-- Witness for C2: with every frame showing the far unaligned marker, the
return-home phase fails with the AlignmentTimeout error. -/
theorem c2_witness :
    (return_home envFar s0).1 = .error "Failed to align with landing marker" :=
  c2_bounded_loop_fail_closed.2.1 envFar s0 s0 homeEntry rfl rfl
    (fun i _ => ⟨exFrameFar, rfl, by with_unfolding_all rfl⟩)

/-- Claim C10: the acknowledgement of a corrective 20 cm command inside
the alignment loop is discarded — the loop's entire result and state are
unchanged under any reassignment of the acknowledgement script — whereas a
refused acknowledgement makes a path command fail immediately with
"Path command failed: ..." (and the takeoff command with
"Takeoff command failed"). -/
theorem c10_correction_acks_discarded :
    (∀ (env : Env) (a2 : ℕ → Bool) (fuel : ℕ) (s : DState),
       align_loop { env with acks := a2 } fuel s = align_loop env fuel s) ∧
    (∀ (env : Env) (s : DState) (c : MovementCommand) (rest : List MovementCommand),
       env.acks s.sendIdx = false →
       execute_path env (c :: rest) s =
         (.error ("Path command failed: " ++ cmdString c),
          { s with sendIdx := s.sendIdx + 1, trace := s.trace ++ [cmdString c] })) ∧
    (∀ (env : Env) (s : DState) (f : Frame) (a : AlignmentData),
       ¬ env.battery < 20 →
       env.frames s.frameIdx = some f →
       (get_landing_alignment f).2 = some a →
       env.acks s.sendIdx = false →
       (takeoff_sequence env s).1 = .error "Takeoff command failed") := by
  refine ⟨align_loop_acks_irrelevant, ?_, ?_⟩
  · intro env s c rest hack
    unfold execute_path send_command
    simp [hack]
  · intro env s f a hb hf hal hack
    unfold takeoff_sequence get_frame send_command
    simp [hb, hf, hal, hack]

/-- Witness for C10: refused acknowledgements leave the alignment loop
unchanged but reject a path command and the takeoff command. -/
theorem c10_witness :
    align_loop { envFar with acks := fun _ => false } 3 s0 = align_loop envFar 3 s0 ∧
    execute_path envReject [cmdFwd] s0 =
      (.error ("Path command failed: " ++ cmdString cmdFwd),
       { s0 with sendIdx := s0.sendIdx + 1, trace := s0.trace ++ [cmdString cmdFwd] }) ∧
    (takeoff_sequence envReject s0).1 = .error "Takeoff command failed" :=
  ⟨c10_correction_acks_discarded.1 envFar (fun _ => false) 3 s0,
   c10_correction_acks_discarded.2.1 envReject s0 cmdFwd [] rfl,
   c10_correction_acks_discarded.2.2 envReject s0 exFrameAligned aAligned
     (by decide) rfl (by with_unfolding_all rfl) rfl⟩

/-- Counterexample to claim C1 as stated: over 3 consecutive rounds the
evaluation yields a visible, not-aligned sample whose translation is
(0.3, 0, 0) — so |translation.x| > 0.2 — yet the loop issues no corrective
motion command at all, because the sample's pixel distance from center
(40 px, squared 1600) does not exceed the 50 px gate checked by the code
before any correction. -/
theorem c1_counterexample :
    (get_landing_alignment exFrameNear).1 = false ∧
    (get_landing_alignment exFrameNear).2.map AlignmentData.translation =
      some (3/10, 0, 0) ∧
    (get_landing_alignment exFrameNear).2.map
      AlignmentData.distance_from_center_sq = some 1600 ∧
    align_loop envNear 3 s0 =
      (.ok false, { frameIdx := 3, sendIdx := 0, trace := [], image_buffer := [] }) :=
  ⟨by with_unfolding_all rfl, by with_unfolding_all rfl,
   by with_unfolding_all rfl, by with_unfolding_all rfl⟩

/-- Claim C1 (amended): in a round whose evaluation yields a visible,
not-aligned sample, the commands issued that round are exactly
`alignment_corrections` of the sample: nothing when the sample's squared
pixel distance from center is at most 2500 (50²), and otherwise a fixed
20 cm right/left command when |translation.x| > 0.2 and a fixed 20 cm
forward/back command when |translation.y| > 0.2; in particular 3
consecutive rounds of the far, not-aligned sample with translation
(0.3, 0, 0) and distance 60 px issue exactly 3 `right 20` commands, after
which the mission fails with the AlignmentTimeout error. -/
theorem c1_corrections_distance_gated :
    (∀ (env : Env) (s : DState) (fuel : ℕ) (f : Frame) (a : AlignmentData),
       env.frames s.frameIdx = some f →
       get_landing_alignment f = (false, some a) →
       ∃ t, (align_loop env (fuel + 1) s).2.trace =
         (s.trace ++ alignment_corrections a) ++ t) ∧
    (∀ a : AlignmentData, a.distance_from_center_sq ≤ 2500 →
       alignment_corrections a = []) ∧
    (∀ a : AlignmentData, a.distance_from_center_sq > 2500 →
       alignment_corrections a =
         (if pyAbs a.translation.1 > 1 / 5 then
            [if a.translation.1 > 0 then "right 20" else "left 20"] else []) ++
         (if pyAbs a.translation.2.1 > 1 / 5 then
            [if a.translation.2.1 > 0 then "forward 20" else "back 20"] else [])) ∧
    align_loop envFar 3 s0 =
      (.ok false, { frameIdx := 3, sendIdx := 3
                    trace := ["right 20", "right 20", "right 20"]
                    image_buffer := [] }) ∧
    (return_home envFar s0).1 = .error "Failed to align with landing marker" := by
  refine ⟨?_, ?_, ?_, by with_unfolding_all rfl, by with_unfolding_all rfl⟩
  · intro env s fuel f a hf hga
    unfold align_loop get_frame
    rw [hf]
    dsimp only
    rw [hga]
    dsimp only
    rw [send_corrections_eq]
    obtain ⟨h1, h2, t, h3⟩ := align_loop_state_components env fuel
      ⟨s.frameIdx + 1, s.sendIdx + (alignment_corrections a).length,
       s.trace ++ alignment_corrections a, s.image_buffer⟩
    exact ⟨t, by simpa using h3⟩
  · intro a ha
    unfold alignment_corrections
    rw [if_neg (not_lt.2 ha)]
  · intro a ha
    unfold alignment_corrections
    rw [if_pos ha]

/-- Witness for C1's amended theorem at the far sample: the first round's
trace starts with the sample's corrections. -/
theorem c1_witness :
    (∃ t, (align_loop envFar (2 + 1) s0).2.trace =
      (s0.trace ++ alignment_corrections aFar) ++ t) ∧
    alignment_corrections aFar = ["right 20"] :=
  ⟨c1_corrections_distance_gated.1 envFar s0 2 exFrameFar aFar rfl
     (by with_unfolding_all rfl),
   by with_unfolding_all rfl⟩

/-- Claim C9: the capture phase clears any prior image buffer at its start
(its outcome does not depend on the prior buffer), and — for points with no
repositioning command — never raises an error, appending exactly the
non-null sampled frames in point order then intra-point order (the
spec-side `spec_captured_frames`); with frame counts [2, 1] and all frames
non-null the buffer has exactly 3 entries in script order. -/
theorem c9_capture_best_effort :
    (∀ (env : Env) (points : List CapturePoint) (s : DState) (b2 : List Frame),
       capture_location env points { s with image_buffer := b2 } =
       capture_location env points s) ∧
    (∀ (env : Env) (points : List CapturePoint) (s : DState),
       (∀ p ∈ points, p.position = none) →
       capture_location env points s =
         (.ok (), { s with frameIdx := s.frameIdx + totalFrames points
                           image_buffer := spec_captured_frames env points s.frameIdx })) ∧
    capture_location envCap capPoints21 s0 =
      (.ok (), { frameIdx := 3, sendIdx := 0, trace := []
                 image_buffer := [fcap 0, fcap 1, fcap 2] }) := by
  refine ⟨?_, ?_, by with_unfolding_all rfl⟩
  · intro env points s b2
    rfl
  · intro env points s h
    unfold capture_location
    rw [capture_points_loop_no_position env points _ h]
    simp

/-- Witness for C9 at the [2, 1] capture-point script. -/
theorem c9_witness :
    capture_location envCap capPoints21 s0 =
      (.ok (), { s0 with frameIdx := s0.frameIdx + totalFrames capPoints21
                         image_buffer :=
                           spec_captured_frames envCap capPoints21 s0.frameIdx }) :=
  c9_capture_best_effort.2.1 envCap capPoints21 s0 (by decide)

/-- Counterexample to claim C4 as stated: an accepted mission to `siteA`
completes successfully with the command trace showing the return leg
executed the `home` entry's return path ("left 100") and not `siteA`'s own
return path ("back 100"). -/
theorem c4_counterexample :
    (execute_mission envC4 "siteA" c0).1 = .ok mC4 ∧
    lookupLocation envC4.locations "siteA" = some siteA ∧
    siteA.return_path.map cmdString = ["back 100"] ∧
    (lookupLocation envC4.locations "home").map LocationData.return_path =
      some homeB.return_path ∧
    homeB.return_path.map cmdString = ["left 100"] ∧
    (execute_mission envC4 "siteA" c0).2.dstate.trace =
      ["takeoff", "up 100", "forward 100", "left 100", "land"] ∧
    "back 100" ∉ (["takeoff", "up 100", "forward 100", "left 100", "land"] : List String) :=
  ⟨by with_unfolding_all rfl, by with_unfolding_all rfl, by with_unfolding_all rfl,
   by with_unfolding_all rfl, by with_unfolding_all rfl, by with_unfolding_all rfl,
   by decide⟩

/-- Claim C4 (amended): for every accepted, fully successful mission the
command trace decomposes as takeoff and ascent, then the outbound path of
the requested location's table entry, then the capture phase's reposition
commands, then the return path of the `home` table entry (not the
requested location's), then the alignment corrections, then `land`. -/
theorem c4_outbound_from_location_return_from_home_entry :
    ∀ (env : Env) (lid : String) (c : CtrlState) (loc home : LocationData)
      (m : Mission),
      c.mission_in_progress = false →
      lookupLocation env.locations lid = some loc →
      lookupLocation env.locations "home" = some home →
      (execute_mission env lid c).1 = .ok m →
      ∃ tCap tAlign,
        (execute_mission env lid c).2.dstate.trace =
          c.dstate.trace ++
            ["takeoff", "up " ++ toString (pyInt (TAKEOFF_HEIGHT * 100))] ++
            loc.path.map cmdString ++ tCap ++
            home.return_path.map cmdString ++ tAlign ++ ["land"] := by
  intro env lid c loc home m h hl hlh hm
  have hp := execute_mission_ok_pipeline env lid c loc h hl m hm
  obtain ⟨s1, s2, s3, h1, h2, h3, h4⟩ := mission_pipeline_ok env loc c.dstate _ hp
  have e1 := takeoff_sequence_ok env c.dstate s1 h1
  have e2 := execute_path_ok env loc.path s1 s2 h2
  have h3' : capture_points_loop env loc.capture_points
      { s2 with image_buffer := [] } = (.ok (), s3) := h3
  obtain ⟨tCap, e3⟩ := capture_points_loop_ok_trace env loc.capture_points _ _ h3'
  obtain ⟨home2, s4, s5, hl', hep, hal, hs'⟩ := return_home_ok env s3 _ h4
  have hhome : home2 = home := by
    rw [hl'] at hlh
    exact Option.some.inj hlh
  rw [hhome] at hep
  have e4 := execute_path_ok env home.return_path s3 s4 hep
  obtain ⟨hfi, hbuf, tAlign, e5⟩ := align_loop_state_components env 3 s4
  have hs5 : s5 = (align_loop env 3 s4).2 := by rw [hal]
  refine ⟨tCap, tAlign, ?_⟩
  have hfin : (execute_mission env lid c).2.dstate.trace = s5.trace ++ ["land"] := by
    rw [hs']
  rw [hfin, hs5, e5, e4]
  dsimp only
  rw [e3]
  dsimp only
  rw [e2]
  dsimp only
  rw [e1]

/-- Witness for C4's amended theorem at the concrete two-entry table. -/
theorem c4_witness :
    ∃ tCap tAlign,
      (execute_mission envC4 "siteA" c0).2.dstate.trace =
        c0.dstate.trace ++
          ["takeoff", "up " ++ toString (pyInt (TAKEOFF_HEIGHT * 100))] ++
          siteA.path.map cmdString ++ tCap ++
          homeB.return_path.map cmdString ++ tAlign ++ ["land"] :=
  c4_outbound_from_location_return_from_home_entry envC4 "siteA" c0 siteA homeB mC4
    rfl (by with_unfolding_all rfl) (by with_unfolding_all rfl)
    (by with_unfolding_all rfl)
